import Mathlib

/-!
Verification development for the BhashaSetu web-crawl pipeline
(`ingestion/webcrawl`: `crawler.py`, `visitors.py`, `strategies.py`,
`repositories.py`, `page.py`).

The Python source is shallowly embedded: pure functions become Lean
functions, sqlite state becomes an explicit `DB` record threaded through
the operations, Python exceptions become `Except String`, and the
`Crawler` recursion becomes a structurally recursive function whose
recursion depth argument is instantiated with the depth budget that the
source enforces through its `depth > max_depth` guard.

Modelling conventions, each noted again at the definition it concerns:
* `unicodedata.normalize("NFKC", ...)` is kept abstract as a function
  parameter `nfkc : String → String`; every theorem holds for an
  arbitrary such function, and witnesses instantiate it with `id`
  (NFKC is the identity on the ASCII inputs used there).
* `hashlib.sha1` of the normalized text is modelled by the normalized
  text itself: the code only ever compares hashes for equality, so any
  injective function of the normalized text yields the same behaviour.
* Python truthiness of an optional string is `strTruthy`.
-/

/-! ## Python string primitives -/

/-- Python `str.lower()` restricted to character-wise lowering. -/
def pyLower (s : String) : String := String.mk (s.toList.map Char.toLower)

/-- Python `str.strip()`: drop leading and trailing whitespace. -/
def pyStrip (s : String) : String :=
  String.mk (((s.toList.dropWhile Char.isWhitespace).reverse.dropWhile Char.isWhitespace).reverse)

/-- Helper for `re.sub(r"\s+", " ", t)`: replace every maximal run of
whitespace by a single space.  The boolean records whether the previous
character was whitespace. -/
def collapseWSAux : Bool → List Char → List Char
  | _, [] => []
  | prevWS, c :: cs =>
    if c.isWhitespace then
      if prevWS then collapseWSAux true cs else ' ' :: collapseWSAux true cs
    else c :: collapseWSAux false cs

/-- `re.sub(r"\s+", " ", t)` from `visitors.py` line 372. -/
def collapseWS (s : String) : String := String.mk (collapseWSAux false s.toList)

/-- `DBVisitor._normalize_text` (`visitors.py` lines 369-373):
NFKC-normalize (abstract parameter `nfkc`), strip, lower-case, collapse
whitespace runs to single spaces. -/
def normalize_text (nfkc : String → String) (text : String) : String :=
  collapseWS (pyLower (pyStrip (nfkc text)))

/-- `DBVisitor._hash_text` (`visitors.py` lines 375-378).  The sha1 digest
is modelled by the normalized text itself; the code only compares hashes
for equality, so any injective function of the normalized text gives the
same dedup behaviour (sha1 is collision-free on the corpus by assumption). -/
def hash_text (nfkc : String → String) (text : String) : String :=
  normalize_text nfkc text

/-- Python truthiness of an optional string: `None` and `""` are falsy. -/
def strTruthy : Option String → Bool
  | none => false
  | some s => !(s == "")

/-! ## Python dict primitives (string-valued metadata maps) -/

abbrev Metadata := List (String × String)

/-- `d.get(k)` returning `None` when absent. -/
def dictFind (m : Metadata) (k : String) : Option String :=
  (m.find? (fun p => p.1 == k)).map (fun p => p.2)

/-- `d.get(k, dflt)`. -/
def dictGetD (m : Metadata) (k dflt : String) : String :=
  (dictFind m k).getD dflt

/-- `d[k] = v`: update in place when the key exists, append otherwise
(Python dicts preserve insertion order). -/
def dictSet (m : Metadata) (k v : String) : Metadata :=
  if m.any (fun p => p.1 == k) then
    m.map (fun p => if p.1 == k then (k, v) else p)
  else m ++ [(k, v)]

/-- `old.update(upd)`. -/
def dictUpdate (old upd : Metadata) : Metadata :=
  upd.foldl (fun acc p => dictSet acc p.1 p.2) old

/-! ## Sentence processing chain (`strategies.py` lines 9-14, `visitors.py` lines 289-337) -/

/-- `ProcessorResult` (`strategies.py` lines 9-14).  `status` defaults to
`"new"`, `reject` to `False`, `metadata` to `None` (empty map). -/
structure ProcResult where
  text : Option String
  status : Option String := some "new"
  reject : Bool := false
  metadata : Metadata := []
deriving DecidableEq

/-- A sentence processor as called at `visitors.py` line 306.  Returning
`none` models `process` returning a value that is not a
`ProcessorResult`, which the code answers with `raise TypeError`
(line 308). -/
abbrev RawProcessor := Option String → Metadata → Option ProcResult

/-- The per-sentence accumulator of `SentenceProcessorVisitor.on_page_process`
(`visitors.py` lines 300-303): `current_text`, `sentence_status`,
`domain_meta`, `rejected`. -/
structure ChainAcc where
  current_text : Option String
  sentence_status : Option String
  domain_meta : Metadata
  rejected : Bool
deriving DecidableEq

/-- Accumulator at the top of the processor loop (`visitors.py` lines 300-303). -/
def initAcc (s : String) : ChainAcc :=
  { current_text := some s, sentence_status := none, domain_meta := [], rejected := false }

/-- One non-rejecting iteration of the processor loop
(`visitors.py` lines 314-319): adopt `result.text`, adopt `result.status`
when truthy, merge `result.metadata` when non-empty. -/
def chainStep (acc : ChainAcc) (r : ProcResult) : ChainAcc :=
  let a1 := { acc with current_text := r.text }
  let a2 := if strTruthy r.status then { a1 with sentence_status := r.status } else a1
  if r.metadata.isEmpty then a2
  else { a2 with domain_meta := dictUpdate a2.domain_meta r.metadata }

/-- The inner `for p in self.processors` loop (`visitors.py` lines 305-323).
`Except.error` is the `raise TypeError` of line 308; `reject` breaks with
the `rejected` flag set (lines 310-312); `status == "rejected"` breaks
after the step (lines 322-323). -/
def runChain (meta : Metadata) : List RawProcessor → ChainAcc → Except String ChainAcc
  | [], acc => .ok acc
  | p :: ps, acc =>
    match p acc.current_text meta with
    | none => .error "TypeError"
    | some r =>
      if r.reject then .ok { acc with rejected := true }
      else
        let acc2 := chainStep acc r
        if r.status = some "rejected" then .ok acc2
        else runChain meta ps acc2

/-- Python `st or "new"` on an optional string (falsy yields `"new"`). -/
def statusOr (st : Option String) : String :=
  if strTruthy st then st.getD "" else "new"

/-- Lines 325-331: after the loop, a sentence is emitted iff it was not
`reject`-discarded and its current text is truthy; the emitted
`ProcessorResult` carries the accumulated status (default `"new"`) and
the merged metadata. -/
def processOne (procs : List RawProcessor) (meta : Metadata) (s : String) :
    Except String (Option ProcResult) :=
  match runChain meta procs (initAcc s) with
  | .error e => .error e
  | .ok acc =>
    .ok (if acc.rejected = false && strTruthy acc.current_text then
      some { text := acc.current_text, status := some (statusOr acc.sentence_status),
             reject := false, metadata := acc.domain_meta }
    else none)

/-- The outer `for s in self.splitter(...)` loop (`visitors.py` lines
299-331) collecting the emitted results in order; a `TypeError` raised
for any sentence propagates out of the whole event handler. -/
def collectResults (procs : List RawProcessor) (meta : Metadata) :
    List String → Except String (List ProcResult)
  | [] => .ok []
  | s :: rest =>
    match processOne procs meta s with
    | .error e => .error e
    | .ok none => collectResults procs meta rest
    | .ok (some r) =>
      match collectResults procs meta rest with
      | .error e => .error e
      | .ok rs => .ok (r :: rs)

/-! ## Persistence layer (`repositories.py`, sqlite state as an explicit record)

Every repository method in the source ends with `self.conn.commit()`
(`repositories.py` lines 15, 30, 96, 111; `visitors.py` line 394), so
each primitive write below is an immediately committed sqlite write and
the `DB` record always denotes the committed database state. -/

/-- `staging_sentences` row (schema of `repositories.py` lines 45-54 after the
`hash` and `duplicate_of` columns have been added by
`scripts/backfill_and_mark_duplicates.py` lines 25-33). -/
structure SentenceRow where
  id : Nat
  link_id : Nat
  sentence : String
  status : String
  hash : Option String := none
  duplicate_of : Option Nat := none
deriving DecidableEq

/-- `domain` row (`repositories.py` lines 57-65). -/
structure DomainRow where
  id : Nat
  code : String
  name : String
deriving DecidableEq

/-- `staging_sentence_domain` row (`repositories.py` lines 67-78);
`sentence_id` is unique.  `confidence` is threaded opaquely, so it is kept
as an optional string. -/
structure SentenceDomainRow where
  sentence_id : Nat
  domain_id : Nat
  confidence : Option String := none
  source : String := "rule_based"
deriving DecidableEq

/-- The four crawl tables plus the sqlite AUTOINCREMENT counters
(sqlite row ids start at 1).  Lists are kept in insertion order, which is
the scan order of the `SELECT ... LIMIT 1` queries the code issues. -/
structure DB where
  links : List (Nat × String) := []
  sentences : List SentenceRow := []
  domains : List DomainRow := []
  sentence_domains : List SentenceDomainRow := []
  next_link_id : Nat := 1
  next_sentence_id : Nat := 1
  next_domain_id : Nat := 1
deriving DecidableEq

def emptyDB : DB := {}

/-- `LinkRepository.insert` (`repositories.py` lines 12-17):
`INSERT OR IGNORE` followed by a `SELECT id` for the url. -/
def links_insert (db : DB) (url : String) : DB × Nat :=
  match db.links.find? (fun p => p.2 == url) with
  | some p => (db, p.1)
  | none =>
    ({ db with links := db.links ++ [(db.next_link_id, url)],
               next_link_id := db.next_link_id + 1 }, db.next_link_id)

/-- `DBVisitor._url_exists` (`visitors.py` lines 505-508). -/
def url_exists (db : DB) (url : String) : Bool :=
  db.links.any (fun p => p.2 == url)

/-- `DBVisitor._insert_sentence_row` (`visitors.py` lines 380-395):
append a `staging_sentences` row, filling `hash` and `duplicate_of` only
when the table has those columns (`use_hash`), and return `lastrowid`.
The `self.conn.commit()` at line 394 makes this row committed immediately. -/
def insert_sentence_row (use_hash : Bool) (db : DB) (link_id : Nat)
    (s status : String) (hash_val : Option String) (duplicate_of : Option Nat) :
    DB × Nat :=
  let row : SentenceRow :=
    { id := db.next_sentence_id, link_id := link_id, sentence := s, status := status,
      hash := if use_hash then hash_val else none,
      duplicate_of := if use_hash then duplicate_of else none }
  ({ db with sentences := db.sentences ++ [row],
             next_sentence_id := db.next_sentence_id + 1 }, db.next_sentence_id)

/-- `DomainRepository.get_or_create` (`repositories.py` lines 88-97). -/
def domain_get_or_create (db : DB) (code name : String) : DB × Nat :=
  match db.domains.find? (fun d => d.code == code) with
  | some d => (db, d.id)
  | none =>
    ({ db with domains := db.domains ++ [{ id := db.next_domain_id, code := code, name := name }],
               next_domain_id := db.next_domain_id + 1 }, db.next_domain_id)

/-- `SentenceDomainRepository.insert` (`repositories.py` lines 105-111):
`INSERT OR REPLACE` keyed on the unique `sentence_id`. -/
def sentence_domain_insert (db : DB) (sid did : Nat)
    (confidence : Option String) (source : String) : DB :=
  { db with sentence_domains :=
      (db.sentence_domains.filter (fun r => !(r.sentence_id == sid))) ++
        [{ sentence_id := sid, domain_id := did, confidence := confidence, source := source }] }

/-- The `for r in page.processed_results` loop of `DBVisitor.on_page_end`
(`visitors.py` lines 447-497).  `domFail idx` injects a raised exception
at the `sentence_domain_repo.insert` call of the `idx`-th iteration,
modelling a persistence-write failure mid-page; the boolean result is
`true` when the loop aborted with an exception, and the returned `DB` is
the committed state at that moment (every earlier write was individually
committed, see above). -/
def insertResults (use_hash : Bool) (nfkc : String → String) (domFail : Nat → Bool)
    (link_id : Nat) : DB → Nat → List ProcResult → DB × Bool
  | db, _, [] => (db, false)
  | db, idx, r :: rs =>
    let s := pyStrip (r.text.getD "")
    if s == "" then insertResults use_hash nfkc domFail link_id db (idx + 1) rs
    else
      let st := statusOr r.status
      if use_hash then
        let h := hash_text nfkc s
        match db.sentences.find? (fun row => row.hash == some h) with
        | some orig =>
          let ins := insert_sentence_row true db link_id s "duplicate" (some h) (some orig.id)
          insertResults use_hash nfkc domFail link_id ins.1 (idx + 1) rs
        | none =>
          let ins := insert_sentence_row true db link_id s st (some h) none
          let code := dictGetD r.metadata "domain_code" "misc"
          let name := dictGetD r.metadata "domain_name" "Miscellaneous"
          let dom := domain_get_or_create ins.1 code name
          if domFail idx then (dom.1, true)
          else
            let db4 := sentence_domain_insert dom.1 ins.2 dom.2
              (dictFind r.metadata "confidence") (dictGetD r.metadata "source" "rule_based")
            insertResults use_hash nfkc domFail link_id db4 (idx + 1) rs
      else
        match db.sentences.find? (fun row => row.sentence == s) with
        | some _ =>
          let ins := insert_sentence_row false db link_id s "duplicate" none none
          insertResults use_hash nfkc domFail link_id ins.1 (idx + 1) rs
        | none =>
          let ins := insert_sentence_row false db link_id s st none none
          let code := dictGetD r.metadata "domain_code" "misc"
          let name := dictGetD r.metadata "domain_name" "Miscellaneous"
          let dom := domain_get_or_create ins.1 code name
          if domFail idx then (dom.1, true)
          else
            let db4 := sentence_domain_insert dom.1 ins.2 dom.2
              (dictFind r.metadata "confidence") (dictGetD r.metadata "source" "rule_based")
            insertResults use_hash nfkc domFail link_id db4 (idx + 1) rs

/-! ## Page record and visitor stages (`page.py`, `visitors.py`) -/

/-- `Page.flags` restricted to the boolean keys the stages write
(`visitors.py` lines 199, 203, 219, 249, 402-413). -/
structure PageFlags where
  visited : Bool := false
  duplicate : Bool := false
  excluded : Bool := false
  failed : Bool := false
  already_in_db : Bool := false
  skip_processing : Bool := false
deriving DecidableEq

/-- `Page.should_skip` (`page.py` lines 43-44). -/
def shouldSkip (f : PageFlags) : Bool :=
  f.skip_processing || f.excluded || f.duplicate || f.failed

/-- `Page` (`page.py` lines 4-26).  `processed_results = none` models the
attribute being absent (`hasattr` is false), as checked at
`visitors.py` lines 419-422. -/
structure PageM where
  url : String
  depth : Nat := 0
  is_root : Bool := false
  text : Option String := none
  text_clean : Option String := none
  sentences : List String := []
  sentence_statuses : List String := []
  links : List String := []
  processed_results : Option (List ProcResult) := none
  flags : PageFlags := {}
deriving DecidableEq

/-- `DBVisitor.on_page_start` (`visitors.py` lines 398-413). -/
def db_on_page_start (db : DB) (p : PageM) : PageM :=
  if p.is_root then
    { p with flags := { p.flags with already_in_db := false, skip_processing := false } }
  else if url_exists db p.url then
    { p with flags := { p.flags with already_in_db := true, skip_processing := true } }
  else
    { p with flags := { p.flags with already_in_db := false, skip_processing := false } }

/-- `DBVisitor.on_page_end` (`visitors.py` lines 415-503).  The
`Except.error` is the `raise RuntimeError` of lines 419-422; the
`try`/`except` of lines 437-503 turns an exception from the write loop
into a logged error that increments `stats["errors"]` and returns
normally, keeping whatever had already been committed. -/
def db_on_page_end (use_hash : Bool) (nfkc : String → String) (domFail : Nat → Bool)
    (p : PageM) (db : DB) (errors : Nat) : Except String (DB × Nat) :=
  match p.processed_results with
  | none => .error "RuntimeError missing processed_results"
  | some rs =>
    if p.is_root then .ok (db, errors)
    else if p.flags.already_in_db then .ok (db, errors)
    else if shouldSkip p.flags || rs.isEmpty then .ok (db, errors)
    else
      let ins := links_insert db p.url
      match insertResults use_hash nfkc domFail ins.2 ins.1 0 rs with
      | (db2, false) => .ok (db2, errors)
      | (db2, true) => .ok (db2, errors + 1)

/-- `URLTrackerVisitor.on_page_start` (`visitors.py` lines 195-204),
threading `context.visited`. -/
def urltracker_on_page_start (visited : List String) (p : PageM) : PageM × List String :=
  if visited.contains p.url then
    ({ p with flags := { p.flags with duplicate := true } }, visited)
  else
    ({ p with flags := { p.flags with visited := true } }, visited ++ [p.url])

/-- `ExclusionVisitor.on_page_start` (`visitors.py` lines 214-221) with the
configured patterns abstracted into a predicate. -/
def exclusion_on_page_start (excludePred : String → Bool) (p : PageM) : PageM :=
  if excludePred p.url then { p with flags := { p.flags with excluded := true } } else p

/-- `FetcherVisitor.on_page_process` (`visitors.py` lines 231-251): skip
when flagged; otherwise the blocking GET either stores the body or sets
`flags.failed` and increments the error counter.  The network is the
abstract function `web` (`none` = any fetch failure). -/
def fetcher_on_page_process (web : String → Option String) (p : PageM) (errors : Nat) :
    PageM × Nat :=
  if shouldSkip p.flags then (p, errors)
  else
    match web p.url with
    | some body => ({ p with text := some body }, errors)
    | none => ({ p with flags := { p.flags with failed := true } }, errors + 1)

/-- `ParserVisitor.on_page_process` (`visitors.py` lines 261-274): skip
when flagged or without raw text; otherwise extract visible text and
outbound links.  BeautifulSoup is the abstract function `parse`. -/
def parser_on_page_process (parse : String → String × List String) (p : PageM) : PageM :=
  if shouldSkip p.flags || !(strTruthy p.text) then p
  else
    let out := parse (p.text.getD "")
    { p with text_clean := some out.1, links := out.2 }

/-- The metadata dict built at `visitors.py` line 297; `is_root` is a
Python bool, rendered by its truthiness. -/
def pageMeta (p : PageM) : Metadata :=
  [("url", p.url), ("is_root", if p.is_root then "True" else "")]

/-- `SentenceProcessorVisitor.on_page_process` (`visitors.py` lines
289-337): when skipped it still attaches an empty `processed_results`
(line 293); otherwise it splits, runs the chain, attaches the results and
adds their count to `stats["sentences"]`.  An uncaught `TypeError` from
the chain propagates (no page field is assigned before it is raised). -/
def sentproc_on_page_process (splitter : String → List String) (procs : List RawProcessor)
    (p : PageM) (sentences_stat : Nat) : Except String (PageM × Nat) :=
  if shouldSkip p.flags || !(strTruthy p.text_clean) then
    .ok ({ p with processed_results := some [] }, sentences_stat)
  else
    match collectResults procs (pageMeta p) (splitter (p.text_clean.getD "")) with
    | .error e => .error e
    | .ok rs =>
      .ok ({ p with processed_results := some rs,
                    sentences := rs.map (fun r => r.text.getD ""),
                    sentence_statuses := rs.map (fun r => r.status.getD "") },
           sentences_stat + rs.length)

/-! ## Crawler (`crawler.py`) -/

/-- `context.stats` (`crawler.py` lines 15-20). -/
structure Stats where
  pages : Nat := 0
  links : Nat := 0
  errors : Nat := 0
  sentences : Nat := 0
deriving DecidableEq

/-- The configuration keys `Crawler._crawl` reads (`crawler.py` lines 57-59)
with their source defaults. -/
structure Config where
  max_depth : Nat := 1
  max_pages : Nat := 50
  min_sentences : Nat := 1

/-- `CrawlContext` state threaded through `_crawl`, plus two ghost
observation fields: `trace` records each `Page` construction
(`crawler.py` line 81, url and depth of every visited page, in order) and
`discovered` records each `on_link_discovered` broadcast (line 96).
`ext` carries visitor-owned state (database, visited set); no visitor in
`visitors.py` ever writes `stop_triggered`, so the stop flag is managed
by the crawler alone, exactly as in the source. -/
structure CrawlState (σ : Type) where
  stats : Stats := {}
  stop_triggered : Bool := false
  trace : List (String × Nat) := []
  discovered : List String := []
  ext : σ

/-- The combined effect of broadcasting `on_page_start`, `on_page_process`
and `on_page_end` for one page (`crawler.py` lines 85-87): visitors may
update the stats and their own state and leave outbound links on the
page (returned last). -/
abbrev VisitFn (σ : Type) := String → Nat → Bool → Stats → σ → Stats × σ × List String

/-- The stop-condition block of `Crawler._crawl` (`crawler.py` lines
65-74).  Result: (return-now, new flag value).  With the flag unset the
predicate is `pages >= max_pages and sentences >= min_sentences` and a
true evaluation latches the flag; with the flag set the call returns
silently. -/
def stopEval (max_pages min_sentences : Nat) (flag : Bool) (pages sentences : Nat) :
    Bool × Bool :=
  if flag = false then
    if max_pages ≤ pages ∧ min_sentences ≤ sentences then (true, true) else (false, false)
  else (true, true)

/-- Scan for the first `"://"` and return what follows it. -/
def dropScheme : List Char → Option (List Char)
  | [] => none
  | ':' :: '/' :: '/' :: rest => some rest
  | _ :: rest => dropScheme rest

/-- `urlparse(u).netloc` for the absolute http(s) URLs the crawl compares
(`crawler.py` line 99): the authority between `"://"` and the next `"/"`;
a URL without a scheme separator (a relative link) has an empty authority. -/
def netloc (url : String) : String :=
  match dropScheme url.toList with
  | none => ""
  | some rest => String.mk (rest.takeWhile (fun c => !(c == '/')))

/-- `Crawler._crawl` (`crawler.py` lines 55-100), structurally recursive on
`gas`.  `gas` is instantiated (in `crawl` below) with `max_depth + 1 - depth`,
the bound the source enforces through its `depth > max_depth` guard
(line 77): the guard precedes the `gas` match, so the `gas = 0` branch is
unreachable under that instantiation and the definition is an exact
rendering of the source, which terminates because every recursive call is
at `depth + 1`.  In order: stop evaluation (lines 61-74), depth guard
(line 77), page construction and `pages += 1` (lines 81-82), the visitor
broadcast (lines 85-87), then the link loop (lines 90-100) with its
mid-loop stop check, `links += 1`, `on_link_discovered` broadcast, and the
same-authority recursion at `depth + 1` with `is_root = False`. -/
def crawlGo (cfg : Config) (visit : VisitFn σ) (gas : Nat) (st : CrawlState σ)
    (url : String) (depth : Nat) (isRoot : Bool) : CrawlState σ :=
  let he := stopEval cfg.max_pages cfg.min_sentences st.stop_triggered
    st.stats.pages st.stats.sentences
  if he.1 then { st with stop_triggered := he.2 }
  else if cfg.max_depth < depth then st
  else
    match gas with
    | 0 => st
    | gas' + 1 =>
      let st1 := { st with stats := { st.stats with pages := st.stats.pages + 1 },
                           trace := st.trace ++ [(url, depth)] }
      let out := visit url depth isRoot st1.stats st1.ext
      let st2 := { st1 with stats := out.1, ext := out.2.1 }
      out.2.2.foldl (fun s l =>
        if s.stop_triggered then s
        else
          let s1 := { s with stats := { s.stats with links := s.stats.links + 1 },
                             discovered := s.discovered ++ [l] }
          if netloc l == netloc url then crawlGo cfg visit gas' s1 l (depth + 1) false
          else s1) st2

/-- The body of the link loop (`crawler.py` lines 91-100) as a named
function (identical to the lambda inside `crawlGo`): mid-loop stop check,
link counter, `on_link_discovered` ghost record, same-authority recursion. -/
def linkStep (cfg : Config) (visit : VisitFn σ) (gas : Nat) (url : String) (depth : Nat)
    (s : CrawlState σ) (l : String) : CrawlState σ :=
  if s.stop_triggered then s
  else
    let s1 := { s with stats := { s.stats with links := s.stats.links + 1 },
                       discovered := s.discovered ++ [l] }
    if netloc l == netloc url then crawlGo cfg visit gas s1 l (depth + 1) false
    else s1

/-- `Crawler._crawl` at its call sites: the recursion budget is the depth
budget left before the line-77 guard fires. -/
def crawl (cfg : Config) (visit : VisitFn σ) (st : CrawlState σ)
    (url : String) (depth : Nat) (isRoot : Bool) : CrawlState σ :=
  crawlGo cfg visit (cfg.max_depth + 1 - depth) st url depth isRoot

/-- Unfolding of one visited page in terms of `linkStep`. -/
theorem crawlGo_succ (cfg : Config) (visit : VisitFn σ) (gas : Nat) (st : CrawlState σ)
    (url : String) (depth : Nat) (isRoot : Bool)
    (hstop : (stopEval cfg.max_pages cfg.min_sentences st.stop_triggered
      st.stats.pages st.stats.sentences).1 = false)
    (hd : ¬ cfg.max_depth < depth) :
    crawlGo cfg visit (gas + 1) st url depth isRoot =
      (let st1 := { st with stats := { st.stats with pages := st.stats.pages + 1 },
                            trace := st.trace ++ [(url, depth)] }
       let out := visit url depth isRoot st1.stats st1.ext
       out.2.2.foldl (linkStep cfg visit gas url depth) { st1 with stats := out.1, ext := out.2.1 }) := by
  rw [crawlGo]
  simp only [hstop, hd]
  rfl

/-! ## The composed visitor pipeline

The repository contains no driver that instantiates the visitor chain
(`Crawler` receives `visitors` from its caller, which is absent), so the
chain order below follows the one dependency-consistent order of the
concrete stages in `visitors.py`: URL tracker and exclusion and DB check
on `page_start`; fetcher, parser, sentence processor on `page_process`;
DB persistence on `page_end`.  `Crawler._notify` (`crawler.py` lines
45-53) wraps every handler in `try`/`except` and logs: an exception from
a handler leaves the run state as the handler left it (the handlers
modelled here mutate nothing before their raise points). -/

/-- Visitor-owned cross-page state: the sqlite database and
`context.visited`. -/
structure RunExt where
  db : DB := emptyDB
  visited : List String := []
deriving DecidableEq

/-- The external world and configuration of one run: the network, the
HTML parser, the sentence splitter, the processor chain, NFKC, the
schema flag, the exclusion patterns and the injected persistence
failure schedule. -/
structure Env where
  web : String → Option String
  parse : String → String × List String
  splitter : String → List String
  procs : List RawProcessor
  nfkc : String → String
  use_hash : Bool
  excludePred : String → Bool
  domFail : Nat → Bool

/-- One full `page_start` / `page_process` / `page_end` broadcast
(`crawler.py` lines 85-87) over the concrete stages, returning the final
page as well.  The two `match`es on `Except` are the `try`/`except` of
`Crawler._notify`: a raising handler is logged and the run continues. -/
def visitPageFull (env : Env) (stats : Stats) (ext : RunExt)
    (url : String) (depth : Nat) (isRoot : Bool) : Stats × RunExt × PageM :=
  let p0 : PageM := { url := url, depth := depth, is_root := isRoot }
  let start1 := urltracker_on_page_start ext.visited p0
  let p2 := exclusion_on_page_start env.excludePred start1.1
  let p3 := db_on_page_start ext.db p2
  let fet := fetcher_on_page_process env.web p3 stats.errors
  let p5 := parser_on_page_process env.parse fet.1
  let sp :=
    match sentproc_on_page_process env.splitter env.procs p5 stats.sentences with
    | .ok r => r
    | .error _ => (p5, stats.sentences)
  let fin :=
    match db_on_page_end env.use_hash env.nfkc env.domFail sp.1 ext.db fet.2 with
    | .ok r => r
    | .error _ => (ext.db, fet.2)
  ({ stats with errors := fin.2, sentences := sp.2 },
   { db := fin.1, visited := start1.2 }, sp.1)

/-- The pipeline as the crawler sees it: the page is discarded after
`page_end` and only its `links` feed the traversal (`crawler.py` line 90). -/
def visitPage (env : Env) : VisitFn RunExt := fun url depth isRoot stats ext =>
  match visitPageFull env stats ext url depth isRoot with
  | (stats2, ext2, p) => (stats2, ext2, p.links)

/-! ## Chain validator (`visitors.py` lines 24-30 and 136-167) -/

/-- `IMPLICIT_PAGE_ATTRS` (`visitors.py` lines 24-30). -/
def IMPLICIT_PAGE_ATTRS : List String :=
  ["page.url", "page.flags", "page.is_root", "page.depth", "page.text"]

/-- A stage as the validator sees it: its `consumes` and `produces`
attribute lists. -/
abbrev StageContract := List String × List String

/-- The validator fold (`visitors.py` lines 146-163): `produced` starts as
the implicit attribute set; a stage whose `consumes` has an attribute in
neither set raises; otherwise its `produces` are added. -/
def validateChainAux : List String → List StageContract → Except String Unit
  | _, [] => .ok ()
  | produced, stage :: rest =>
    let missing := stage.1.filter
      (fun c => !(produced.contains c) && !(IMPLICIT_PAGE_ATTRS.contains c))
    if missing.isEmpty then validateChainAux (produced ++ stage.2) rest
    else .error "Validator: consumed attributes not produced by any prior visitor"

def validateChain (stages : List StageContract) : Except String Unit :=
  validateChainAux IMPLICIT_PAGE_ATTRS stages

/-- `VisitorChainValidator.on_crawl_start` as dispatched in a run
(`visitors.py` line 142): it reads `getattr(context, "visitors", [])`.
`ctx_visitors` is the `visitors` attribute of the `CrawlContext` if one
was ever assigned; `CrawlContext.__init__` (`crawler.py` lines 9-20)
creates no such attribute and nothing in the repository assigns it, so
in every actual run the argument is `none`. -/
def validator_on_crawl_start (ctx_visitors : Option (List StageContract)) :
    Except String Unit :=
  validateChain (ctx_visitors.getD [])

/-- `Crawler.run` (`crawler.py` lines 37-43): build a fresh context, fire
`on_crawl_start` through `_notify` — whose `try`/`except` (lines 50-53)
swallows any exception the validator raises — then traverse from the
seed at depth 0 with `is_root = True`. -/
def crawler_run (cfg : Config) (visit : VisitFn σ) (ext0 : σ)
    (ctx_visitors : Option (List StageContract)) (start_url : String) : CrawlState σ :=
  match validator_on_crawl_start ctx_visitors with
  | _ => crawl cfg visit { ext := ext0 } start_url 0 true

/-! ## Stop-condition sequences (spec section 8, second bullet) -/

/-- A sequence of stop evaluations as performed by successive
`_crawl` entries: each element provides the counters at that entry and
the latched flag is threaded through. -/
def stopEvalSeq (maxP minS : Nat) : Bool → List (Nat × Nat) → List Bool
  | _, [] => []
  | flag, c :: cs =>
    match stopEval maxP minS flag c.1 c.2 with
    | (halt, f2) => halt :: stopEvalSeq maxP minS f2 cs

theorem stopEval_true_flag (maxP minS p s : Nat) :
    stopEval maxP minS true p s = (true, true) := rfl

theorem stopEval_halt_sets_flag (maxP minS : Nat) (flag : Bool) (p s : Nat)
    (h : (stopEval maxP minS flag p s).1 = true) :
    (stopEval maxP minS flag p s).2 = true := by
  cases flag with
  | false =>
    by_cases hc : maxP ≤ p ∧ minS ≤ s <;> simp [stopEval, hc] at h ⊢
  | true => rfl

theorem stopEvalSeq_flag_true (maxP minS : Nat) (cs : List (Nat × Nat)) :
    stopEvalSeq maxP minS true cs = List.replicate cs.length true := by
  induction cs with
  | nil => rfl
  | cons c cs ih => simp [stopEvalSeq, stopEval_true_flag, ih, List.replicate]

theorem replicate_true_get? : ∀ (n k : Nat), (List.replicate n true).get? k ≠ some false := by
  intro n
  induction n with
  | zero => intro k h; simp [List.replicate] at h
  | succ n ih =>
    intro k
    cases k with
    | zero => simp [List.replicate]
    | succ k => simpa [List.replicate] using ih k

theorem stopEvalSeq_latched (maxP minS : Nat) (flag : Bool) (cs : List (Nat × Nat)) :
    ∀ i j, i < j → (stopEvalSeq maxP minS flag cs).get? i = some true →
      (stopEvalSeq maxP minS flag cs).get? j ≠ some false := by
  induction cs generalizing flag with
  | nil => intro i j _ hi; simp [stopEvalSeq] at hi
  | cons c cs ih =>
    intro i j hij hi
    rcases h : stopEval maxP minS flag c.1 c.2 with ⟨halt, f2⟩
    have hseq : stopEvalSeq maxP minS flag (c :: cs) = halt :: stopEvalSeq maxP minS f2 cs := by
      rw [stopEvalSeq, h]
    rw [hseq] at hi ⊢
    match i, j with
    | 0, j + 1 =>
      have hhalt : halt = true := by simpa using hi
      have hf2 : f2 = true := by
        have := stopEval_halt_sets_flag maxP minS flag c.1 c.2 (by rw [h, hhalt])
        rw [h] at this
        simpa using this
      subst hf2
      rw [stopEvalSeq_flag_true]
      simpa using replicate_true_get? cs.length j
    | i + 1, j + 1 =>
      simp only [List.get?] at hi ⊢
      exact ih f2 i j (Nat.lt_of_succ_lt_succ hij) hi

/-- When the stop flag is set, every remaining iteration of the link loop
returns the state unchanged (`crawler.py` lines 92-93). -/
theorem foldl_linkStep_stopped (cfg : Config) (visit : VisitFn σ) (gas : Nat)
    (url : String) (depth : Nat) (s : CrawlState σ) (ls : List String)
    (h : s.stop_triggered = true) :
    List.foldl (linkStep cfg visit gas url depth) s ls = s := by
  induction ls with
  | nil => rfl
  | cons l ls ih => rw [List.foldl_cons, linkStep, if_pos h, ih]

/-- C1: in every traversal step of `Crawler._crawl`, with the stop flag
unset the stop predicate is true exactly when `pages >= max_pages` and
`sentences >= min_sentences`; its first true evaluation latches the flag
and the call returns without visiting the page; with the flag already set
the call returns immediately; and a sequence of stop evaluations with
non-decreasing counters never yields `false` after once yielding `true`. -/
theorem crawler_stop_latch :
    (∀ maxP minS p s : Nat,
      ((stopEval maxP minS false p s).1 = true ↔ (maxP ≤ p ∧ minS ≤ s)))
    ∧ (∀ (σ : Type) (cfg : Config) (visit : VisitFn σ) (st : CrawlState σ)
        (url : String) (depth : Nat) (isRoot : Bool),
        st.stop_triggered = false → cfg.max_pages ≤ st.stats.pages →
        cfg.min_sentences ≤ st.stats.sentences →
        crawl cfg visit st url depth isRoot = { st with stop_triggered := true })
    ∧ (∀ (σ : Type) (cfg : Config) (visit : VisitFn σ) (st : CrawlState σ)
        (url : String) (depth : Nat) (isRoot : Bool),
        st.stop_triggered = true → crawl cfg visit st url depth isRoot = st)
    ∧ (∀ (maxP minS : Nat) (flag : Bool) (cs : List (Nat × Nat)),
        cs.Chain' (fun a b => a.1 ≤ b.1 ∧ a.2 ≤ b.2) →
        ∀ i j, i < j → (stopEvalSeq maxP minS flag cs).get? i = some true →
          (stopEvalSeq maxP minS flag cs).get? j ≠ some false) := by
  refine ⟨?_, ?_, ?_, ?_⟩
  · intro maxP minS p s
    by_cases hc : maxP ≤ p ∧ minS ≤ s <;> simp [stopEval, hc]
  · intro σ cfg visit st url depth isRoot hflag hp hs
    rw [crawl, crawlGo.eq_def]
    simp [stopEval, hflag, hp, hs]
  · intro σ cfg visit st url depth isRoot hflag
    obtain ⟨stats, flag, tr, disc, ext⟩ := st
    simp only at hflag
    subst hflag
    rw [crawl, crawlGo.eq_def]
    simp [stopEval]
  · intro maxP minS flag cs _ i j hij hi
    exact stopEvalSeq_latched maxP minS flag cs i j hij hi

/-- Witness for `crawler_stop_latch` at concrete inputs. -/
theorem crawler_stop_latch_app :
    crawl {} (fun _ _ _ stats ext => (stats, ext, []))
        ({ stats := { pages := 50, sentences := 1 }, ext := () } : CrawlState Unit)
        "http://h/a" 0 true =
      { stats := { pages := 50, sentences := 1 }, stop_triggered := true, ext := () } := by
  have h := crawler_stop_latch
  exact h.2.1 Unit {} (fun _ _ _ stats ext => (stats, ext, []))
    { stats := { pages := 50, sentences := 1 }, ext := () }
    "http://h/a" 0 true rfl (by decide) (by decide)

/-- C2: one iteration of the link loop (`crawler.py` lines 91-100).  If the
stop flag is already set the remaining links are aborted with the state
unchanged; otherwise the link counter is incremented and the link is
broadcast (recorded in `discovered`), and the loop continues from a
recursive visit at `depth + 1` with `is_root = false` exactly when the
authority of the link equals the authority of the current page; a
cross-origin link is counted and broadcast but contributes no visit (the
continuation state has an unchanged trace). -/
theorem crawl_link_iteration :
    ∀ (σ : Type) (cfg : Config) (visit : VisitFn σ) (gas : Nat) (url : String) (depth : Nat)
      (s : CrawlState σ) (l : String) (ls : List String),
      (s.stop_triggered = true →
        List.foldl (linkStep cfg visit gas url depth) s (l :: ls) = s)
      ∧ (s.stop_triggered = false →
          (List.foldl (linkStep cfg visit gas url depth) s (l :: ls) =
            List.foldl (linkStep cfg visit gas url depth)
              (if netloc l == netloc url then
                crawlGo cfg visit gas
                  { s with stats := { s.stats with links := s.stats.links + 1 },
                           discovered := s.discovered ++ [l] } l (depth + 1) false
               else
                { s with stats := { s.stats with links := s.stats.links + 1 },
                         discovered := s.discovered ++ [l] }) ls)
          ∧ ((netloc l == netloc url) = false →
              List.foldl (linkStep cfg visit gas url depth) s (l :: ls) =
                List.foldl (linkStep cfg visit gas url depth)
                  { s with stats := { s.stats with links := s.stats.links + 1 },
                           discovered := s.discovered ++ [l] } ls
              ∧ ({ s with stats := { s.stats with links := s.stats.links + 1 },
                          discovered := s.discovered ++ [l] } : CrawlState σ).trace = s.trace)) := by
  intro σ cfg visit gas url depth s l ls
  refine ⟨?_, ?_⟩
  · intro h
    exact foldl_linkStep_stopped cfg visit gas url depth s (l :: ls) h
  · intro h
    constructor
    · rw [List.foldl_cons, linkStep, if_neg (by simp [h])]
    · intro hne
      refine ⟨?_, rfl⟩
      rw [List.foldl_cons, linkStep, if_neg (by simp [h]), if_neg (by simp [hne])]

/-- Witness for `crawl_link_iteration` at concrete inputs: a cross-origin
link is counted but not visited. -/
theorem crawl_link_iteration_app :
    List.foldl
        (linkStep {} (fun _ _ _ stats ext => (stats, ext, [])) 1 "http://h/a" 0)
        ({ ext := () } : CrawlState Unit) ["http://k/z"] =
      List.foldl (linkStep {} (fun _ _ _ stats ext => (stats, ext, [])) 1 "http://h/a" 0)
        { stats := { links := 1 }, discovered := ["http://k/z"], ext := () } [] := by
  have h := crawl_link_iteration Unit {} (fun _ _ _ stats ext => (stats, ext, []))
    1 "http://h/a" 0 { ext := () } "http://k/z" []
  exact ((h.2 rfl).2 (by decide)).1

/-- The cyclic two-node link graph used by `crawl_depth_guard_and_revisit`:
page `a` links to page `b` and page `b` links back to page `a`, both on
the same authority. -/
def visitCyc : VisitFn Unit := fun url _ _ stats ext =>
  (stats, ext, if url == "http://h/a" then ["http://h/b"] else ["http://h/a"])

/-- C10: any `_crawl` call with `depth > max_depth` returns immediately
(the state is unchanged except possibly for latching the stop flag, and
no page is visited), so the traversal terminates on every finite link
graph — `crawl` is a total function whose recursion budget is the depth
budget — and it never consults the visited set: on a cyclic two-node
graph with depth budget 2 the start URL is visited and counted twice,
bounded only by the depth guard. -/
theorem crawl_depth_guard_and_revisit :
    (∀ (σ : Type) (cfg : Config) (visit : VisitFn σ) (st : CrawlState σ)
      (url : String) (depth : Nat) (isRoot : Bool),
      cfg.max_depth < depth →
        crawl cfg visit st url depth isRoot = st ∨
        crawl cfg visit st url depth isRoot = { st with stop_triggered := true })
    ∧ (crawl { max_depth := 2 } visitCyc { ext := () } "http://h/a" 0 true).trace =
        [("http://h/a", 0), ("http://h/b", 1), ("http://h/a", 2)]
    ∧ (crawl { max_depth := 2 } visitCyc { ext := () } "http://h/a" 0 true).stats.pages = 3
    ∧ ((crawl { max_depth := 2 } visitCyc { ext := () } "http://h/a" 0 true).trace.countP
        (fun e => e.1 == "http://h/a")) = 2 := by
  have htr : (crawl { max_depth := 2 } visitCyc { ext := () } "http://h/a" 0 true).trace =
      [("http://h/a", 0), ("http://h/b", 1), ("http://h/a", 2)] := by
    simp [crawl, crawlGo, visitCyc, stopEval, netloc, dropScheme]
  refine ⟨?_, htr, ?_, ?_⟩
  · intro σ cfg visit st url depth isRoot hd
    obtain ⟨stats, flag, tr, disc, ext⟩ := st
    cases flag with
    | false =>
      by_cases hc : cfg.max_pages ≤ stats.pages ∧ cfg.min_sentences ≤ stats.sentences
      · right
        rw [crawl, crawlGo.eq_def]
        simp [stopEval, hc]
      · left
        rw [crawl, crawlGo.eq_def]
        simp [stopEval, hc, hd]
    | true =>
      left
      rw [crawl, crawlGo.eq_def]
      simp [stopEval]
  · simp [crawl, crawlGo, visitCyc, stopEval, netloc, dropScheme]
  · rw [htr]
    decide

/-- Witness for `crawl_depth_guard_and_revisit`: the depth-guard clause at
a concrete over-budget call. -/
theorem crawl_depth_guard_and_revisit_app :
    crawl { max_depth := 1 } visitCyc ({ ext := () } : CrawlState Unit) "http://h/a" 5 false =
        ({ ext := () } : CrawlState Unit) ∨
      crawl { max_depth := 1 } visitCyc ({ ext := () } : CrawlState Unit) "http://h/a" 5 false =
        { ext := (), stop_triggered := true } :=
  crawl_depth_guard_and_revisit.1 Unit { max_depth := 1 } visitCyc
    { ext := () } "http://h/a" 5 false (by decide)

/-- C4: the per-sentence accumulation rule of the ordered processor chain
(`visitors.py` lines 299-331).  A result with `reject = true` discards the
sentence entirely: the remaining filters never run and `processOne` emits
nothing.  Otherwise the chain continues from `chainStep acc r`, which
adopts the result text as current text, adopts a truthy result status,
and merges the result metadata into the accumulating map; a result with
status `"rejected"` stops the remaining filters while keeping the
accumulated state.  A sentence that survives with truthy final text is
emitted exactly once, with the accumulated status (or `"new"` when none
was set) and the merged metadata. -/
theorem sentence_chain_accumulation :
    (∀ (p : RawProcessor) (ps ps2 : List RawProcessor) (meta : Metadata)
      (acc : ChainAcc) (r : ProcResult),
      p acc.current_text meta = some r → r.reject = true →
        runChain meta (p :: ps) acc = .ok { acc with rejected := true }
        ∧ runChain meta (p :: ps) acc = runChain meta (p :: ps2) acc)
    ∧ (∀ (procs : List RawProcessor) (meta : Metadata) (s : String) (acc : ChainAcc),
        runChain meta procs (initAcc s) = .ok acc → acc.rejected = true →
        processOne procs meta s = .ok none)
    ∧ (∀ (p : RawProcessor) (ps : List RawProcessor) (meta : Metadata)
        (acc : ChainAcc) (r : ProcResult),
        p acc.current_text meta = some r → r.reject = false → r.status ≠ some "rejected" →
        runChain meta (p :: ps) acc = runChain meta ps (chainStep acc r))
    ∧ (∀ (p : RawProcessor) (ps ps2 : List RawProcessor) (meta : Metadata)
        (acc : ChainAcc) (r : ProcResult),
        p acc.current_text meta = some r → r.reject = false → r.status = some "rejected" →
        runChain meta (p :: ps) acc = .ok (chainStep acc r)
        ∧ runChain meta (p :: ps) acc = runChain meta (p :: ps2) acc)
    ∧ (∀ (procs : List RawProcessor) (meta : Metadata) (s : String) (acc : ChainAcc),
        runChain meta procs (initAcc s) = .ok acc → acc.rejected = false →
        strTruthy acc.current_text = true →
        processOne procs meta s =
          .ok (some { text := acc.current_text, status := some (statusOr acc.sentence_status),
                      reject := false, metadata := acc.domain_meta }))
    ∧ (∀ (procs : List RawProcessor) (meta : Metadata) (s : String)
        (rest : List String) (r : ProcResult),
        processOne procs meta s = .ok (some r) →
        collectResults procs meta (s :: rest) =
          Except.map (fun rs => r :: rs) (collectResults procs meta rest)) := by
  refine ⟨?_, ?_, ?_, ?_, ?_, ?_⟩
  · intro p ps ps2 meta acc r hp hr
    constructor <;> simp [runChain, hp, hr]
  · intro procs meta s acc hrun hrej
    rw [processOne, hrun]
    simp [hrej]
  · intro p ps meta acc r hp hr hs
    simp [runChain, hp, hr, hs]
  · intro p ps ps2 meta acc r hp hr hs
    constructor <;> simp [runChain, hp, hr, hs]
  · intro procs meta s acc hrun hrej htru
    rw [processOne, hrun]
    simp [hrej, htru]
  · intro procs meta s rest r hone
    rw [collectResults, hone]
    cases h : collectResults procs meta rest with
    | error e => simp [Except.map]
    | ok rs => simp [Except.map]

/-- Witness for `sentence_chain_accumulation` at concrete inputs: a
rejecting processor discards the sentence and the rest of the chain never
runs. -/
theorem sentence_chain_accumulation_app :
    runChain [] [fun t _ => some { text := t, reject := true },
        fun _ _ => some { text := some "ignored" }] (initAcc "abc") =
      .ok { initAcc "abc" with rejected := true } := by
  have h := sentence_chain_accumulation
  exact (h.1 (fun t _ => some { text := t, reject := true })
    [fun _ _ => some { text := some "ignored" }] [] [] (initAcc "abc")
    { text := some "abc", reject := true } rfl rfl).1

/-- C5: `DBVisitor.on_page_end` on a root page (`visitors.py` lines
424-427) performs zero sentence writes and zero domain-mapping writes,
regardless of the processed results attached to the page: the database
and the error counter are returned unchanged. -/
theorem root_page_no_persist :
    ∀ (use_hash : Bool) (nfkc : String → String) (domFail : Nat → Bool)
      (p : PageM) (db : DB) (errors : Nat) (rs : List ProcResult),
      p.is_root = true → p.processed_results = some rs →
      db_on_page_end use_hash nfkc domFail p db errors = .ok (db, errors) := by
  intro use_hash nfkc domFail p db errors rs hroot hres
  rw [db_on_page_end, hres]
  simp [hroot]

/-- Witness for `root_page_no_persist` at concrete inputs. -/
theorem root_page_no_persist_app :
    db_on_page_end true id (fun _ => false)
        { url := "http://h/", is_root := true,
          processed_results := some [{ text := some "Alpha beta" }] } emptyDB 0 =
      .ok (emptyDB, 0) :=
  root_page_no_persist true id (fun _ => false)
    { url := "http://h/", is_root := true,
      processed_results := some [{ text := some "Alpha beta" }] }
    emptyDB 0 [{ text := some "Alpha beta" }] rfl rfl

/-! ## Dedup and persistence theorems -/

/-- The never-failing persistence schedule (no injected write error). -/
def noFail : Nat → Bool := fun _ => false

/-- A non-root page carrying accepted pipeline results into `page_end`,
with no skip flags set. -/
def resultPage (url : String) (rs : List ProcResult) : PageM :=
  { url := url, processed_results := some rs }

/-- The claim-relevant projection of a sentence row:
(id, status, hash, duplicateOf). -/
def sentView (r : SentenceRow) : Nat × String × Option String × Option Nat :=
  (r.id, r.status, r.hash, r.duplicate_of)

/-- C3: content-hash dedup is idempotent and first-seen wins
(`visitors.py` lines 445-497).  Persisting a first accepted result into an
empty store inserts one row with the pipeline-assigned status (default
`"new"`) and the content hash and one domain mapping; persisting a later
result whose text is equal after normalization (NFKC, strip, lower-case,
collapse whitespace) inserts a row with status `"duplicate"` whose
`duplicate_of` is the id of the first-seen row — strictly lower than the
new id — and writes no domain mapping; a third near-duplicate points at
the same original id.  `nfkc` is arbitrary. -/
theorem dedup_first_seen_wins :
    ∀ (nfkc : String → String) (t1 t2 t3 u1 u2 u3 : String) (m1 m2 m3 : Metadata),
      pyStrip t1 ≠ "" → pyStrip t2 ≠ "" → pyStrip t3 ≠ "" →
      u2 ≠ u1 → u3 ≠ u1 → u3 ≠ u2 →
      normalize_text nfkc (pyStrip t2) = normalize_text nfkc (pyStrip t1) →
      normalize_text nfkc (pyStrip t3) = normalize_text nfkc (pyStrip t1) →
      ∃ db1 db2 db3 : DB,
        db_on_page_end true nfkc noFail
            (resultPage u1 [{ text := some t1, status := none, metadata := m1 }]) emptyDB 0 =
          .ok (db1, 0)
        ∧ db1.sentences.map sentView =
            [(1, "new", some (hash_text nfkc (pyStrip t1)), none)]
        ∧ db1.sentence_domains.map (fun r => r.sentence_id) = [1]
        ∧ db_on_page_end true nfkc noFail
            (resultPage u2 [{ text := some t2, status := none, metadata := m2 }]) db1 0 =
          .ok (db2, 0)
        ∧ db2.sentences.map sentView =
            [(1, "new", some (hash_text nfkc (pyStrip t1)), none),
             (2, "duplicate", some (hash_text nfkc (pyStrip t2)), some 1)]
        ∧ db2.sentence_domains = db1.sentence_domains
        ∧ db_on_page_end true nfkc noFail
            (resultPage u3 [{ text := some t3, status := none, metadata := m3 }]) db2 0 =
          .ok (db3, 0)
        ∧ db3.sentences.map sentView =
            [(1, "new", some (hash_text nfkc (pyStrip t1)), none),
             (2, "duplicate", some (hash_text nfkc (pyStrip t2)), some 1),
             (3, "duplicate", some (hash_text nfkc (pyStrip t3)), some 1)]
        ∧ db3.sentence_domains = db1.sentence_domains
        ∧ (∀ r ∈ db3.sentences, ∀ d, r.duplicate_of = some d → d < r.id) := by
  intro nfkc t1 t2 t3 u1 u2 u3 m1 m2 m3 ht1 ht2 ht3 hu21 hu31 hu32 heq2 heq3
  have hb1 : (pyStrip t1 == "") = false := by simp [ht1]
  have hb2 : (pyStrip t2 == "") = false := by simp [ht2]
  have hb3 : (pyStrip t3 == "") = false := by simp [ht3]
  have hh2 : hash_text nfkc (pyStrip t2) = hash_text nfkc (pyStrip t1) := heq2
  have hh3 : hash_text nfkc (pyStrip t3) = hash_text nfkc (pyStrip t1) := heq3
  have hbu21 : (u1 == u2) = false := by simp [Ne.symm hu21]
  have hbu31 : (u1 == u3) = false := by simp [Ne.symm hu31]
  have hbu32 : (u2 == u3) = false := by simp [Ne.symm hu32]
  refine ⟨
    { links := [(1, u1)],
      sentences := [{ id := 1, link_id := 1, sentence := pyStrip t1, status := "new",
                      hash := some (hash_text nfkc (pyStrip t1)), duplicate_of := none }],
      domains := [{ id := 1, code := dictGetD m1 "domain_code" "misc",
                    name := dictGetD m1 "domain_name" "Miscellaneous" }],
      sentence_domains := [{ sentence_id := 1, domain_id := 1,
                             confidence := dictFind m1 "confidence",
                             source := dictGetD m1 "source" "rule_based" }],
      next_link_id := 2, next_sentence_id := 2, next_domain_id := 2 },
    { links := [(1, u1), (2, u2)],
      sentences := [{ id := 1, link_id := 1, sentence := pyStrip t1, status := "new",
                      hash := some (hash_text nfkc (pyStrip t1)), duplicate_of := none },
                    { id := 2, link_id := 2, sentence := pyStrip t2, status := "duplicate",
                      hash := some (hash_text nfkc (pyStrip t2)), duplicate_of := some 1 }],
      domains := [{ id := 1, code := dictGetD m1 "domain_code" "misc",
                    name := dictGetD m1 "domain_name" "Miscellaneous" }],
      sentence_domains := [{ sentence_id := 1, domain_id := 1,
                             confidence := dictFind m1 "confidence",
                             source := dictGetD m1 "source" "rule_based" }],
      next_link_id := 3, next_sentence_id := 3, next_domain_id := 2 },
    { links := [(1, u1), (2, u2), (3, u3)],
      sentences := [{ id := 1, link_id := 1, sentence := pyStrip t1, status := "new",
                      hash := some (hash_text nfkc (pyStrip t1)), duplicate_of := none },
                    { id := 2, link_id := 2, sentence := pyStrip t2, status := "duplicate",
                      hash := some (hash_text nfkc (pyStrip t2)), duplicate_of := some 1 },
                    { id := 3, link_id := 3, sentence := pyStrip t3, status := "duplicate",
                      hash := some (hash_text nfkc (pyStrip t3)), duplicate_of := some 1 }],
      domains := [{ id := 1, code := dictGetD m1 "domain_code" "misc",
                    name := dictGetD m1 "domain_name" "Miscellaneous" }],
      sentence_domains := [{ sentence_id := 1, domain_id := 1,
                             confidence := dictFind m1 "confidence",
                             source := dictGetD m1 "source" "rule_based" }],
      next_link_id := 4, next_sentence_id := 4, next_domain_id := 2 },
    ?_, by simp [sentView], by simp, ?_, by simp [sentView], by simp, ?_, by simp [sentView], by simp, ?_⟩
  · simp [db_on_page_end, resultPage, shouldSkip, links_insert, emptyDB, insertResults,
      insert_sentence_row, domain_get_or_create, sentence_domain_insert, statusOr, strTruthy,
      noFail, hb1]
  · simp [db_on_page_end, resultPage, shouldSkip, links_insert, insertResults,
      insert_sentence_row, statusOr, strTruthy, noFail, hb2, hh2, hbu21]
  · simp [db_on_page_end, resultPage, shouldSkip, links_insert, insertResults,
      insert_sentence_row, statusOr, strTruthy, noFail, hb3, hh3, hh2, hbu31, hbu32]
  · intro r hr d hd
    simp only [List.mem_cons, List.not_mem_nil, or_false] at hr
    rcases hr with rfl | rfl | rfl
    · simp at hd
    · simp only [Option.some.injEq] at hd
      show d < 2
      omega
    · simp only [Option.some.injEq] at hd
      show d < 3
      omega
/-- Witness for `dedup_first_seen_wins` at concrete inputs (NFKC is the
identity on these ASCII strings). -/
theorem dedup_first_seen_wins_app :
    (normalize_text id (pyStrip "hello world") = normalize_text id (pyStrip "Hello  World")
      ∧ normalize_text id (pyStrip " HELLO WORLD") = normalize_text id (pyStrip "Hello  World"))
    ∧ ∃ db1 db2 db3 : DB,
        db_on_page_end true id noFail
            (resultPage "http://h/a" [{ text := some "Hello  World", status := none, metadata := [] }]) emptyDB 0 =
          .ok (db1, 0)
        ∧ db1.sentences.map sentView =
            [(1, "new", some (hash_text id (pyStrip "Hello  World")), none)]
        ∧ db1.sentence_domains.map (fun r => r.sentence_id) = [1]
        ∧ db_on_page_end true id noFail
            (resultPage "http://h/b" [{ text := some "hello world", status := none, metadata := [] }]) db1 0 =
          .ok (db2, 0)
        ∧ db2.sentences.map sentView =
            [(1, "new", some (hash_text id (pyStrip "Hello  World")), none),
             (2, "duplicate", some (hash_text id (pyStrip "hello world")), some 1)]
        ∧ db2.sentence_domains = db1.sentence_domains
        ∧ db_on_page_end true id noFail
            (resultPage "http://h/c" [{ text := some " HELLO WORLD", status := none, metadata := [] }]) db2 0 =
          .ok (db3, 0)
        ∧ db3.sentences.map sentView =
            [(1, "new", some (hash_text id (pyStrip "Hello  World")), none),
             (2, "duplicate", some (hash_text id (pyStrip "hello world")), some 1),
             (3, "duplicate", some (hash_text id (pyStrip " HELLO WORLD")), some 1)]
        ∧ db3.sentence_domains = db1.sentence_domains
        ∧ (∀ r ∈ db3.sentences, ∀ d, r.duplicate_of = some d → d < r.id) :=
  ⟨⟨by decide, by decide⟩,
    dedup_first_seen_wins id "Hello  World" "hello world" " HELLO WORLD"
      "http://h/a" "http://h/b" "http://h/c" [] [] []
      (by decide) (by decide) (by decide) (by decide) (by decide) (by decide)
      (by decide) (by decide)⟩

/-- A persistence schedule in which the domain-mapping write of the second
processed result raises (a representative mid-page write failure). -/
def failSecond : Nat → Bool := fun i => i == 1

/-- C7 counterexample: per-page persistence is not atomic.  With a write
error injected at the second domain-mapping insert, `on_page_end` catches
the exception and increments the error counter (second component 1), yet
the committed store retains both sentence rows and the first domain
mapping — neither all of the page writes (2 rows + 2 mappings) nor none
of them, contradicting the claimed all-or-nothing unit.  Every
`_insert_sentence_row` call commits individually (`visitors.py` line 394). -/
theorem page_persist_not_atomic_cex :
    ∃ db2 : DB,
      db_on_page_end true id failSecond
          (resultPage "http://h/x"
            [{ text := some "Alpha beta", status := none, metadata := [] },
             { text := some "Gamma delta", status := none, metadata := [] }]) emptyDB 0 =
        .ok (db2, 1)
      ∧ db2.sentences.length = 2
      ∧ db2.sentence_domains.length = 1
      ∧ ¬ (db2.sentences = []) := by
  refine ⟨_, rfl, by decide, by decide, by decide⟩

/-- C7 amended: the writes of one page are committed individually as they
are made, not as one atomic unit.  When no write fails, all sentence rows
and domain mappings of the page are committed; when a write error occurs
mid-page, the error is caught and logged, the error counter is
incremented, the handler returns normally (the run continues with the
next page), and the writes already performed for that page stay
committed — there is no rollback. -/
theorem page_persist_partial_commit :
    ∀ (nfkc : String → String) (t1 t2 u : String) (m : Metadata) (errors : Nat),
      pyStrip t1 ≠ "" → pyStrip t2 ≠ "" →
      normalize_text nfkc (pyStrip t2) ≠ normalize_text nfkc (pyStrip t1) →
      (∃ dbok : DB,
        db_on_page_end true nfkc noFail
            (resultPage u [{ text := some t1, status := none, metadata := m },
                           { text := some t2, status := none, metadata := m }]) emptyDB errors =
          .ok (dbok, errors)
        ∧ dbok.sentences.map (fun r => (r.id, r.status)) = [(1, "new"), (2, "new")]
        ∧ dbok.sentence_domains.map (fun r => r.sentence_id) = [1, 2])
      ∧ (∃ dberr : DB,
        db_on_page_end true nfkc failSecond
            (resultPage u [{ text := some t1, status := none, metadata := m },
                           { text := some t2, status := none, metadata := m }]) emptyDB errors =
          .ok (dberr, errors + 1)
        ∧ dberr.sentences.map (fun r => (r.id, r.status)) = [(1, "new"), (2, "new")]
        ∧ dberr.sentence_domains.map (fun r => r.sentence_id) = [1]) := by
  intro nfkc t1 t2 u m errors ht1 ht2 hne
  have hb1 : (pyStrip t1 == "") = false := by simp [ht1]
  have hb2 : (pyStrip t2 == "") = false := by simp [ht2]
  have hbne : (hash_text nfkc (pyStrip t1) == hash_text nfkc (pyStrip t2)) = false := by
    simp [hash_text]
    exact fun h => hne h.symm
  constructor
  · refine ⟨
      { links := [(1, u)],
        sentences := [{ id := 1, link_id := 1, sentence := pyStrip t1, status := "new",
                        hash := some (hash_text nfkc (pyStrip t1)), duplicate_of := none },
                      { id := 2, link_id := 1, sentence := pyStrip t2, status := "new",
                        hash := some (hash_text nfkc (pyStrip t2)), duplicate_of := none }],
        domains := [{ id := 1, code := dictGetD m "domain_code" "misc",
                      name := dictGetD m "domain_name" "Miscellaneous" }],
        sentence_domains := [{ sentence_id := 1, domain_id := 1,
                               confidence := dictFind m "confidence",
                               source := dictGetD m "source" "rule_based" },
                             { sentence_id := 2, domain_id := 1,
                               confidence := dictFind m "confidence",
                               source := dictGetD m "source" "rule_based" }],
        next_link_id := 2, next_sentence_id := 3, next_domain_id := 2 }, ?_, by simp, by simp⟩
    simp [db_on_page_end, resultPage, shouldSkip, links_insert, emptyDB, insertResults,
      insert_sentence_row, domain_get_or_create, sentence_domain_insert, statusOr, strTruthy,
      noFail, hb1, hb2, hbne]
  · refine ⟨
      { links := [(1, u)],
        sentences := [{ id := 1, link_id := 1, sentence := pyStrip t1, status := "new",
                        hash := some (hash_text nfkc (pyStrip t1)), duplicate_of := none },
                      { id := 2, link_id := 1, sentence := pyStrip t2, status := "new",
                        hash := some (hash_text nfkc (pyStrip t2)), duplicate_of := none }],
        domains := [{ id := 1, code := dictGetD m "domain_code" "misc",
                      name := dictGetD m "domain_name" "Miscellaneous" }],
        sentence_domains := [{ sentence_id := 1, domain_id := 1,
                               confidence := dictFind m "confidence",
                               source := dictGetD m "source" "rule_based" }],
        next_link_id := 2, next_sentence_id := 3, next_domain_id := 2 }, ?_, by simp, by simp⟩
    simp [db_on_page_end, resultPage, shouldSkip, links_insert, emptyDB, insertResults,
      insert_sentence_row, domain_get_or_create, sentence_domain_insert, statusOr, strTruthy,
      failSecond, hb1, hb2, hbne]

/-- Witness for `page_persist_partial_commit` at concrete inputs. -/
theorem page_persist_partial_commit_app :
    (pyStrip "Alpha beta" ≠ "" ∧
      normalize_text id (pyStrip "Gamma delta") ≠ normalize_text id (pyStrip "Alpha beta"))
    ∧ (∃ dberr : DB,
        db_on_page_end true id failSecond
            (resultPage "http://h/x" [{ text := some "Alpha beta", status := none, metadata := [] },
                           { text := some "Gamma delta", status := none, metadata := [] }]) emptyDB 0 =
          .ok (dberr, 0 + 1)
        ∧ dberr.sentences.map (fun r => (r.id, r.status)) = [(1, "new"), (2, "new")]
        ∧ dberr.sentence_domains.map (fun r => r.sentence_id) = [1]) :=
  ⟨⟨by decide, by decide⟩,
    (page_persist_partial_commit id "Alpha beta" "Gamma delta" "http://h/x" [] 0
      (by decide) (by decide) (by decide)).2⟩

/-! ## Chain validation and failure isolation theorems -/

/-- A stage producing `page.text_clean` and consuming nothing. -/
def stageA : StageContract := ([], ["page.text_clean"])
/-- A stage consuming `page.text_clean` and producing nothing. -/
def stageB : StageContract := (["page.text_clean"], [])

/-- C6: the validator predicate itself rejects the misordered chain
`[stageB, stageA]` and accepts the reordered `[stageA, stageB]` — but the
validation failure never stops a run.  `CrawlContext` (`crawler.py` lines
9-20) is created without a `visitors` attribute and nothing in the
repository assigns one, so the dispatched validator checks the empty list
and raises nothing (`validator_on_crawl_start none = ok`); and even for a
context that did carry the misordered chain, `Crawler._notify` catches
every visitor exception, so `crawler_run` still proceeds to visit (and
hence fetch) pages: the trace after `run` is nonempty. -/
theorem chain_validator_never_aborts_run :
    (∃ e, validateChain [stageB, stageA] = .error e)
    ∧ validateChain [stageA, stageB] = .ok ()
    ∧ validator_on_crawl_start none = .ok ()
    ∧ (crawler_run {} (fun _ _ _ stats ext => (stats, ext, []) : VisitFn Unit) ()
        (some [stageB, stageA]) "http://h/").trace = [("http://h/", 0)] := by
  refine ⟨⟨_, rfl⟩, rfl, rfl, ?_⟩
  simp [crawler_run, crawl, crawlGo, stopEval, validator_on_crawl_start, validateChain,
    validateChainAux, stageA, stageB]

/-- Environment for the already-persisted-page scenario: the root page
links to `http://h/a`, whose HTML contains the same-authority link
`http://h/b`; no sentences, no exclusions, no write failures. -/
def env8 : Env :=
  { web := fun u => if u == "http://h/" then some "body0" else some "bodyA",
    parse := fun b => if b == "body0" then ("t0", ["http://h/a"]) else ("tA", ["http://h/b"]),
    splitter := fun _ => [],
    procs := [],
    nfkc := id,
    use_hash := true,
    excludePred := fun _ => false,
    domFail := fun _ => false }

/-- A store in which `http://h/a` is already persisted. -/
def db8 : DB := { links := [(1, "http://h/a")], next_link_id := 2 }

/-- C8: a non-root page whose URL is already persisted is marked
`already_in_db` and `skip_processing` at page start (first two
conjuncts, the true part of the claim) — but because `skip_processing`
makes `Page.should_skip()` true, the fetcher and the parser skip the
page: it ends with no raw text, no clean text and an empty link list,
even though its HTML (as `env8.parse` shows) contains the same-authority
link `http://h/b`; consequently the traversal from the root never
reaches `http://h/b`.  This contradicts the claim (and the comment at
`visitors.py` line 429) that such pages are still farmed for links. -/
theorem already_in_db_no_link_extraction :
    (visitPageFull env8 {} { db := db8, visited := ["http://h/"] } "http://h/a" 1 false).2.2.flags.already_in_db = true
    ∧ (visitPageFull env8 {} { db := db8, visited := ["http://h/"] } "http://h/a" 1 false).2.2.flags.skip_processing = true
    ∧ (visitPageFull env8 {} { db := db8, visited := ["http://h/"] } "http://h/a" 1 false).2.2.text = none
    ∧ (visitPageFull env8 {} { db := db8, visited := ["http://h/"] } "http://h/a" 1 false).2.2.text_clean = none
    ∧ (visitPageFull env8 {} { db := db8, visited := ["http://h/"] } "http://h/a" 1 false).2.2.links = []
    ∧ (env8.parse ((env8.web "http://h/a").getD "")).2 = ["http://h/b"]
    ∧ (netloc "http://h/b" == netloc "http://h/a") = true
    ∧ (crawl { max_depth := 2 } (visitPage env8) { ext := { db := db8 } } "http://h/" 0 true).trace =
        [("http://h/", 0), ("http://h/a", 1)] := by
  refine ⟨by decide, by decide, by decide, by decide, by decide, by decide, by decide, ?_⟩
  simp [crawl, crawlGo, visitPage, visitPageFull, env8, db8, stopEval, netloc, dropScheme,
    urltracker_on_page_start, exclusion_on_page_start, db_on_page_start, url_exists,
    fetcher_on_page_process, parser_on_page_process, sentproc_on_page_process,
    db_on_page_end, shouldSkip, strTruthy, collectResults, links_insert, insertResults, pageMeta]

/-- A sentence processor whose `process` returns a value that is not a
`ProcessorResult`. -/
def malformedProc : RawProcessor := fun _ _ => none

/-- Environment whose processor chain consists of one malformed
processor; every page has one sentence and one same-authority link. -/
def env9 : Env :=
  { web := fun _ => some "B",
    parse := fun _ => ("T", ["http://h/b"]),
    splitter := fun _ => ["s1"],
    procs := [malformedProc],
    nfkc := id,
    use_hash := true,
    excludePred := fun _ => false,
    domFail := fun _ => false }

/-- C9 counterexample: the wrong-shape result does raise a `TypeError`
inside `SentenceProcessorVisitor.on_page_process` (first conjunct), but
the violation is not fatal to the run: `Crawler._notify` catches it, and
the crawl goes on to visit the second page (trace has both pages,
`pages = 2`), so the error is isolated to the offending page rather than
aborting the run. -/
theorem typeerror_caught_cex :
    sentproc_on_page_process env9.splitter env9.procs
        { url := "http://h/a", text_clean := some "T" } 0 = .error "TypeError"
    ∧ (crawl { max_depth := 1 } (visitPage env9) { ext := {} } "http://h/a" 0 true).trace =
        [("http://h/a", 0), ("http://h/b", 1)]
    ∧ (crawl { max_depth := 1 } (visitPage env9) { ext := {} } "http://h/a" 0 true).stats.pages = 2 := by
  refine ⟨rfl, ?_, ?_⟩ <;>
  simp [crawl, crawlGo, visitPage, visitPageFull, env9, stopEval, netloc, dropScheme,
    urltracker_on_page_start, exclusion_on_page_start, db_on_page_start, url_exists,
    fetcher_on_page_process, parser_on_page_process, sentproc_on_page_process,
    db_on_page_end, shouldSkip, strTruthy, collectResults, processOne, runChain,
    malformedProc, links_insert, insertResults, pageMeta, initAcc, emptyDB]

/-- A second malformed-chain environment (different site) for the
amended-claim theorem. -/
def env9b : Env :=
  { web := fun _ => some "B2",
    parse := fun _ => ("T2", ["http://k/c"]),
    splitter := fun _ => ["x1"],
    procs := [malformedProc],
    nfkc := id,
    use_hash := true,
    excludePred := fun _ => false,
    domFail := fun _ => false }

/-- C9 amended: a wrong-shape processor result raises a `TypeError`
immediately inside the sentence-processing stage (the remaining
processors never run) and the error propagates out of
`on_page_process`; but the event broadcast of `Crawler._notify` catches
and logs every visitor exception, so the run continues — subsequent pages
are still visited — with the violation isolated to the offending page
(and, unlike transient fetch or write failures, without incrementing the
error counter). -/
theorem typeerror_raised_but_isolated :
    (∀ (p : RawProcessor) (ps : List RawProcessor) (meta : Metadata) (acc : ChainAcc),
      p acc.current_text meta = none →
      runChain meta (p :: ps) acc = .error "TypeError")
    ∧ (∀ (splitter : String → List String) (procs : List RawProcessor) (pg : PageM)
        (n : Nat) (s : String) (rest : List String),
        shouldSkip pg.flags = false → strTruthy pg.text_clean = true →
        splitter (pg.text_clean.getD "") = s :: rest →
        processOne procs (pageMeta pg) s = .error "TypeError" →
        sentproc_on_page_process splitter procs pg n = .error "TypeError")
    ∧ ((crawl { max_depth := 1 } (visitPage env9b) { ext := {} } "http://k/a" 0 true).trace =
        [("http://k/a", 0), ("http://k/c", 1)]
      ∧ (crawl { max_depth := 1 } (visitPage env9b) { ext := {} } "http://k/a" 0 true).stats.errors = 0
      ∧ (crawl { max_depth := 1 } (visitPage env9b) { ext := {} } "http://k/a" 0 true).stats.sentences = 0) := by
  refine ⟨?_, ?_, ?_⟩
  · intro p ps meta acc hp
    rw [runChain, hp]
  · intro splitter procs pg n s rest hskip htru hsplit hone
    rw [sentproc_on_page_process, if_neg (by simp [hskip, htru]), hsplit, collectResults, hone]
  · refine ⟨?_, ?_, ?_⟩ <;>
    simp [crawl, crawlGo, visitPage, visitPageFull, env9b, stopEval, netloc, dropScheme,
      urltracker_on_page_start, exclusion_on_page_start, db_on_page_start, url_exists,
      fetcher_on_page_process, parser_on_page_process, sentproc_on_page_process,
      db_on_page_end, shouldSkip, strTruthy, collectResults, processOne, runChain,
      malformedProc, links_insert, insertResults, pageMeta, initAcc, emptyDB]

/-- Witness for `typeerror_raised_but_isolated` at concrete inputs. -/
theorem typeerror_raised_but_isolated_app :
    (malformedProc (initAcc "x").current_text [] = none)
    ∧ runChain [] [malformedProc] (initAcc "x") = .error "TypeError" :=
  ⟨rfl, typeerror_raised_but_isolated.1 malformedProc [] [] (initAcc "x") rfl⟩
